import Mathlib

set_option maxRecDepth 16384

/- Verification development for the pyinteraph driver (`pyinteraph.py`) and the
   behaviour pinned by its test suite (`tests/test_libinteract.py`).  The
   configuration-file parsers and the driver's analysis dispatch are embedded
   from the source; the pieces of the `libinteract` library that the repository
   only references (the `Sparse` potential table, the hydrogen-bond report
   emission, the potential engine's sequence-distance filter) are modelled from
   the specification, as marked on each such definition. -/

/-- Splits a character list at every occurrence of `sep`, keeping empty
pieces, exactly as Python's `str.split(sep)` does (`"".split(",") == [""]`). -/
def pySplitOnChar (sep : Char) : List Char → List (List Char)
  | [] => [[]]
  | c :: t =>
      let r := pySplitOnChar sep t
      if c = sep then [] :: r
      else
        match r with
        | [] => [[c]]
        | h :: t2 => (c :: h) :: t2

/-- Python `s.split(",")`. -/
def pySplitComma (s : String) : List String :=
  (pySplitOnChar ',' s.data).map String.mk

/-- Python `s.strip()`: removes leading and trailing whitespace. -/
def pyTrim (s : String) : String :=
  String.mk (((s.data.dropWhile Char.isWhitespace).reverse.dropWhile
    Char.isWhitespace).reverse)

/-- Python `s.lower()` (ASCII, which covers the configuration keys in play). -/
def pyToLower (s : String) : String :=
  String.mk (s.data.map Char.toLower)

/-- Python `s.upper()` (ASCII, which covers the residue names in play). -/
def pyToUpper (s : String) : String :=
  String.mk (s.data.map Char.toUpper)

/-- Python exception kinds that the configuration-parsing code paths can raise. -/
inductive PyErr where
  | noSection
  | noOption
  | typeError
  | valueError
  | keyError
deriving DecidableEq

/-- Association-list lookup with string keys, mirroring Python dict lookup
(`k in d` / `d[k]` on the ordered dicts that `configparser` exposes). -/
def alistLookup {α : Type} : List (String × α) → String → Option α
  | [], _ => none
  | (k', v) :: t, k => if k' = k then some v else alistLookup t k

/-- Python dict assignment `d[k] = v`: overwrites the value in place when the
key is present (keeping its position), otherwise appends the new pair, which is
Python's insertion-order semantics. -/
def pyDictSet {α : Type} : List (String × α) → String → α → List (String × α)
  | [], k, v => [(k, v)]
  | (k', v') :: t, k, v =>
      if k' = k then (k, v) :: t else (k', v') :: pyDictSet t k v

/-- Python dict access `d[k]`, raising `KeyError` when the key is absent. -/
def dictGetE {α : Type} (d : List (String × α)) (k : String) : Except PyErr α :=
  match alistLookup d k with
  | some v => Except.ok v
  | none => Except.error PyErr.keyError

/-- A parsed INI file as `configparser` exposes it: sections in file order,
each carrying its options in file order.  Option names are stored lowercased,
because `ConfigParser.optionxform` lowercases them at read time; section names
keep their case. -/
structure IniFile where
  sections : List (String × List (String × String))
deriving DecidableEq

/-- `cfg.options(section)`: the option names of a section in order; raises
`NoSectionError` when the section is missing (which is what happens after
`cfg.read` silently ignored an unreadable file). -/
def IniFile.optionsE (cfg : IniFile) (sec : String) : Except PyErr (List String) :=
  match alistLookup cfg.sections sec with
  | some opts => Except.ok (opts.map Prod.fst)
  | none => Except.error PyErr.noSection

/-- `cfg.get(section, option)`: the requested option name is lowercased by
`optionxform` before lookup; raises `NoSectionError` / `NoOptionError`. -/
def IniFile.getE (cfg : IniFile) (sec opt : String) : Except PyErr String :=
  match alistLookup cfg.sections sec with
  | none => Except.error PyErr.noSection
  | some opts =>
      match alistLookup opts (pyToLower opt) with
      | some v => Except.ok v
      | none => Except.error PyErr.noOption

/-- Embeds the recurring idiom `[x.strip() for x in s.split(",")]`. -/
def pyStripSplit (s : String) : List String :=
  (pySplitComma s).map pyTrim

/-- A charged-group dictionary: group name to atom-name list. -/
abbrev CgDict := List (String × List String)

/-- The residue map a charged-groups parser is meant to produce. -/
abbrev CgsOut := List (String × CgDict)

/-- Embedding of `parse_cgs_file` from `pyinteraph.py` (lines 53-107).  After
the guarded `cfg.read`, line 67-69 evaluates
`[item.strip() for item in cfg.options(grps_str).remove(default_grps_str)]`
outside any `try`: Python's `list.remove` mutates the list and returns `None`,
so the comprehension iterates over `None` and raises an uncaught `TypeError`
whenever the section and key exist; `remove` raises `ValueError` when the key
is absent, and `options` raises `NoSectionError` when the section is absent.
Hence the function never returns normally.  (Were the body reached, line 98
`out[res] = def_charged_dict.copy().update(charged_groups_dict)` would store
`None` for every residue, since `dict.update` also returns `None` — the value
type is therefore `Option CgDict`.) -/
def driver_parse_cgs_file (cfg : IniFile) :
    Except PyErr (List (String × Option CgDict)) :=
  match cfg.optionsE "CHARGED_GROUPS" with
  | Except.error e => Except.error e
  | Except.ok opts =>
      if "default_charged_groups" ∈ opts then
        Except.error PyErr.typeError
      else
        Except.error PyErr.valueError

/-- Embedding of the reference `parse_cgs_file` from
`tests/test_libinteract.py` (lines 9-52).  `charged_groups.remove(...)` is a
genuine list removal here (the result is not reused), options are unique, so it
is removal of the single occurrence; the stray loop at test lines 36-37
re-strips the already-stripped entries of the last processed group and is a
semantic no-op, so it is omitted.  Exceptions inside the residue loop would hit
an `except` clause that itself references an undefined name, so they
effectively propagate; we model them as propagating `Except` errors. -/
def test_parse_cgs_file (cfg : IniFile) : Except PyErr CgsOut := do
  let cgOpts ← cfg.optionsE "CHARGED_GROUPS"
  if "default_charged_groups" ∉ cgOpts then
    throw PyErr.valueError
  let charged_groups :=
    (cgOpts.filter (fun o => o ≠ "default_charged_groups")).map pyTrim
  let defaultStr ← cfg.getE "CHARGED_GROUPS" "default_charged_groups"
  let default_charged := pyStripSplit defaultStr
  let residues ← cfg.optionsE "RESIDUES"
  let group_definitions ← (charged_groups ++ default_charged).foldlM
    (fun acc i => do
      let v ← cfg.getE "CHARGED_GROUPS" i
      pure (pyDictSet acc i (pyStripSplit v)))
    ([] : List (String × List String))
  let out ← residues.foldlM
    (fun out i => do
      let iU := pyToUpper i
      let base ← default_charged.foldlM
        (fun acc j => do
          let g ← dictGetE group_definitions j
          pure (pyDictSet acc j g))
        ([] : CgDict)
      let thisStr ← cfg.getE "RESIDUES" iU
      let resDict ← (pyStripSplit thisStr).foldlM
        (fun acc j => do
          if j ≠ "" then
            let g ← dictGetE group_definitions (pyToLower j)
            pure (pyDictSet acc j g)
          else
            pure acc)
        base
      pure (pyDictSet out iU resDict))
    ([] : CgsOut)
  pure out

/-- A concrete well-formed charged-groups file, shaped like the repository's
`charged_groups.ini` (option names lowercased, as `configparser` stores them;
residue `ala` lists no extra group). -/
def exCgsIni : IniFile :=
  ⟨[("CHARGED_GROUPS",
     [("default_charged_groups", "nter, cter"),
      ("nter", "N, H1, H2, H3"),
      ("cter", "C, O1, O2"),
      ("sb1", "OD1, OD2, CG")]),
    ("RESIDUES",
     [("asp", "sb1"),
      ("ala", "")])]⟩

/-- What the reference parser computes on `exCgsIni`: each upper-cased residue
mapped to the default charged groups plus its residue-specific ones. -/
def exCgsExpected : CgsOut :=
  [("ASP", [("nter", ["N", "H1", "H2", "H3"]),
            ("cter", ["C", "O1", "O2"]),
            ("sb1", ["OD1", "OD2", "CG"])]),
   ("ALA", [("nter", ["N", "H1", "H2", "H3"]),
            ("cter", ["C", "O1", "O2"])])]

/-- Whether an `Except` computation returned normally. -/
def exceptIsOk {ε α : Type} : Except ε α → Bool
  | Except.ok _ => true
  | Except.error _ => false

lemma driver_parse_cgs_file_fails (cfg : IniFile) :
    ∃ err, driver_parse_cgs_file cfg = Except.error err := by
  unfold driver_parse_cgs_file
  rcases h : cfg.optionsE "CHARGED_GROUPS" with err | opts
  · exact ⟨err, rfl⟩
  · by_cases hmem : "default_charged_groups" ∈ opts
    · exact ⟨PyErr.typeError, by simp [hmem]⟩
    · exact ⟨PyErr.valueError, by simp [hmem]⟩

/-- C1: the claim states that `parse_cgs_file` in the driver returns, for every
well-formed charged-groups INI file, a map from upper-cased residue names to
non-`None` group dictionaries equal to the reference parser's output.  The
driver code cannot do this: it never returns normally at all (`list.remove`
returns `None`, so line 67-69 raises `TypeError` on every well-formed file),
while the reference parser from the test suite produces the expected map on the
same file.  This theorem exhibits both facts. -/
theorem C1_driver_parse_cgs_never_returns :
    (∀ cfg : IniFile, exceptIsOk (driver_parse_cgs_file cfg) = false) ∧
    driver_parse_cgs_file exCgsIni = Except.error PyErr.typeError ∧
    test_parse_cgs_file exCgsIni = Except.ok exCgsExpected := by
  refine ⟨fun cfg => ?_, rfl, rfl⟩
  obtain ⟨err, herr⟩ := driver_parse_cgs_file_fails cfg
  rw [herr]
  rfl

/-- One `(4-character key, value)` bin record of the binary potential file. -/
structure BinRecord where
  c1 : Char
  c2 : Char
  c3 : Char
  c4 : Char
  value : ℚ
deriving DecidableEq

/-- The key under which a bin record is stored: `"".join(data[0:4])`. -/
def binKey (b : BinRecord) : String :=
  String.mk [b.c1, b.c2, b.c3, b.c4]

/-- Modelled from the spec: the `Sparse` class of `libinteract` is not under
`src/`; only its tests are.  Fields follow spec sections 3 and 6 (breakpoints,
four reference-probability parameters, cutoff, step, total count, populated-bin
count, bin mapping), with the constructor behaviour pinned by the in-src test
`TestSparse.test_Sparse_constructor`, which asserts that the stored object
satisfies `cutoff**2 == record[6]` and `1.0/step == record[7]`.  The stored
cutoff is represented here by its square, `cutoffSq`, so that the model stays
inside `ℚ` (the code stores the floating square root). -/
structure Sparse where
  r1 : ℚ
  r2 : ℚ
  p1_1 : ℚ
  p1_2 : ℚ
  p2_1 : ℚ
  p2_2 : ℚ
  cutoffSq : ℚ
  step : ℚ
  total : ℚ
  num : ℚ
  bins : List (String × ℚ)
deriving DecidableEq

/-- Modelled from the spec: the `Sparse` constructor, consuming one 10-value
record of the binary potential file (the Python code indexes `SparseInfo[0]`
through `SparseInfo[9]`; a record always has ten values, so the default for
`getD` is never used on the inputs of interest).  `cutoffSq` holds the 7th
value (the stored cutoff is its square root) and `step` the reciprocal of the
8th value. -/
def Sparse.ofRecord (v : List ℚ) : Sparse :=
  { r1 := v.getD 0 0
    r2 := v.getD 1 0
    p1_1 := v.getD 2 0
    p1_2 := v.getD 3 0
    p2_1 := v.getD 4 0
    p2_2 := v.getD 5 0
    cutoffSq := v.getD 6 0
    step := 1 / v.getD 7 0
    total := v.getD 8 0
    num := v.getD 9 0
    bins := [] }

/-- Modelled from the spec: `Sparse.add_bin` of `libinteract` is not under
`src/`.  Spec section 9 describes the bin mapping as a dictionary keyed by a
concatenated-character encoding, and the in-src test `TestSparse.test_add_bin`
pins the behaviour: `self.bins["".join(data[0:4])] = data[4]`. -/
def Sparse.add_bin (s : Sparse) (b : BinRecord) : Sparse :=
  { s with bins := pyDictSet s.bins (binKey b) b.value }

/-- The array the in-src test `test_Sparse_constructor` builds from a `Sparse`
object, with `cutoff**2` rendered through the squared representation and
`1.0/step` rendered as `1/step`. -/
def sparseTestVector (s : Sparse) : List ℚ :=
  [s.r1, s.r2, s.p1_1, s.p1_2, s.p2_1, s.p2_2, s.cutoffSq, 1 / s.step,
   s.total, s.num]

/-- The test fixture `np.arange(0, 10)` as a rational list. -/
def sparseList : List ℚ := [0, 1, 2, 3, 4, 5, 6, 7, 8, 9]

lemma alistLookup_pyDictSet_self {α : Type} (d : List (String × α)) (k : String)
    (v : α) : alistLookup (pyDictSet d k v) k = some v := by
  induction d with
  | nil => simp [pyDictSet, alistLookup]
  | cons hd tl ih =>
      obtain ⟨k', v'⟩ := hd
      by_cases hk : k' = k
      · simp [pyDictSet, alistLookup, hk]
      · simp [pyDictSet, alistLookup, hk, ih]

lemma length_pyDictSet_of_fresh {α : Type} (d : List (String × α)) (k : String)
    (v : α) (h : alistLookup d k = none) :
    (pyDictSet d k v).length = d.length + 1 := by
  induction d with
  | nil => simp [pyDictSet]
  | cons hd tl ih =>
      obtain ⟨k', v'⟩ := hd
      by_cases hk : k' = k
      · simp [alistLookup, hk] at h
      · simp only [alistLookup, hk, if_false] at h
        simp [pyDictSet, hk, ih h]

/-- C3 counterexample: the claim says the constructor stores the 7th record
value as the cutoff radius.  On the test fixture `np.arange(0, 10)` the
constructed entry satisfies `cutoff**2 == 6` (this is exactly what the in-src
test `test_Sparse_constructor` asserts, first conjunct), so the stored cutoff
is `sqrt 6`, whose square differs from the square of the 7th value `6`
(second conjunct): the cutoff is not the 7th value itself. -/
theorem C3_cutoff_counterexample :
    sparseTestVector (Sparse.ofRecord sparseList) = sparseList ∧
    decide ((Sparse.ofRecord sparseList).cutoffSq
      = (sparseList.getD 6 0) ^ 2) = false := by
  constructor
  · norm_num [sparseTestVector, Sparse.ofRecord, sparseList]
  · rw [decide_eq_false_iff_not]
    norm_num [Sparse.ofRecord, sparseList]

/-- C3 (amended): for every 10-value record, the constructed `Sparse` entry
stores values 1-6 as `r1`, `r2` and the four reference-probability parameters,
the square root of the 7th value as its cutoff radius (represented here by
`cutoffSq`, the cutoff's square, which equals the 7th value), the reciprocal of
the 8th value as its bin-width step, the 9th as the total observation count and
the 10th as the populated-bin count — precisely the shape asserted by the
in-src constructor test, whose check vector is reproduced.  (In `ℚ` the
round-trip `1/(1/h) = h` holds unconditionally, so no nonzero hypothesis is
needed for the 8th value.) -/
theorem C3_sparse_constructor_fields (a b c d e f g h i j : ℚ) :
    sparseTestVector (Sparse.ofRecord [a, b, c, d, e, f, g, h, i, j])
      = [a, b, c, d, e, f, g, h, i, j] ∧
    (Sparse.ofRecord [a, b, c, d, e, f, g, h, i, j]).cutoffSq = g ∧
    (Sparse.ofRecord [a, b, c, d, e, f, g, h, i, j]).step = 1 / h := by
  refine ⟨?_, rfl, rfl⟩
  simp [sparseTestVector, Sparse.ofRecord, one_div_one_div]

/-- C9: for every 5-element bin record whose key is not yet present (the test
calls `add_bin` on a freshly constructed object), `Sparse.add_bin` adds exactly
one entry to the bin mapping, keyed by the concatenation of the record's first
four characters, with the fifth element as the stored value; looking that key
up afterwards returns that value. -/
theorem C9_add_bin_inserts (s : Sparse) (b : BinRecord)
    (hfresh : alistLookup s.bins (binKey b) = none) :
    (s.add_bin b).bins.length = s.bins.length + 1 ∧
    alistLookup (s.add_bin b).bins (binKey b) = some b.value := by
  simp only [Sparse.add_bin]
  exact ⟨length_pyDictSet_of_fresh _ _ _ hfresh,
         alistLookup_pyDictSet_self _ _ _⟩

/-- C9 witness: the test scenario — `Sparse(np.arange(0, 10))` followed by
`add_bin(['a', 'b', 'c', 'd', 1])` — satisfies the freshness hypothesis and
yields a one-entry mapping with `bins["abcd"] == 1`. -/
theorem C9_add_bin_inserts_witness :
    alistLookup (Sparse.ofRecord sparseList).bins
      (binKey ⟨'a', 'b', 'c', 'd', 1⟩) = none ∧
    (((Sparse.ofRecord sparseList).add_bin ⟨'a', 'b', 'c', 'd', 1⟩).bins.length
        = (Sparse.ofRecord sparseList).bins.length + 1 ∧
      alistLookup ((Sparse.ofRecord sparseList).add_bin
          ⟨'a', 'b', 'c', 'd', 1⟩).bins (binKey ⟨'a', 'b', 'c', 'd', 1⟩)
        = some (1 : ℚ)) :=
  ⟨rfl, C9_add_bin_inserts _ _ rfl⟩

/-- Which analysis an output or scan event belongs to. -/
inductive AKind where
  | hc
  | sb
  | hb
  | kbp
deriving DecidableEq

/-- Observable actions of one driver run, in program order: text-report writes
(`str2file`), adjacency-matrix writes (`np.savetxt`, with the `fmt` string the
code passes), and the calls into the `libinteract` engines with the arguments
the claims are about. -/
inductive Event where
  | datFile (kind : AKind) (fname : String)
  | matFile (kind : AKind) (fname : String) (fmt : String)
  | scanHC
  | scanSB (mode : String)
  | scanHB (sel1 sel2 : Option String) (perresidue : Bool)
  | scanKBP (seqDistCo : Nat)
deriving DecidableEq

/-- The command-line arguments of `pyinteraph.py` that the modelled control
flow reads, with the argparse defaults of the source. -/
structure Args where
  top : Option String := none
  trj : Option String := none
  do_hc : Bool := false
  do_sb : Bool := false
  do_hb : Bool := false
  do_kbp : Bool := false
  hc_dat : String := "hydrophobic-clusters.dat"
  hc_graph : Option String := none
  sb_dat : String := "salt-bridges.dat"
  sb_graph : Option String := none
  cgs_mode : String := "different_charge"
  hb_dat : String := "hydrogen-bonds.dat"
  hb_graph : Option String := none
  hb_class : String := "all"
  hb_group1 : Option String := none
  hb_group2 : Option String := none
  kbp_dat : String := "kb-potential.dat"
  kbp_graph : Option String := none

/-- The external world the driver run interacts with: the charged-groups file
content, whether the hydrogen-bond donor/acceptor file parses, the structure
provider's atom-selection resolution (`none` = the selection raises, `some n` =
it resolves to `n` atoms), and whether topology/trajectory loading succeeds. -/
structure Env where
  cgsIni : IniFile
  hbsOk : Bool
  selectAtoms : String → Option Nat
  loadOk : Bool

/-- The `--sb-mode` argparse choices (`sbmode_choices`, line 323). -/
def sbmode_choices : List String := ["different_charge", "same_charge", "all"]

/-- The `--sb-mode` argparse default (`sbmode_default`, line 324). -/
def sbmode_default : String := "different_charge"

/-- The mode translation of the `do_sb` block (lines 618-623): the chain of
`if`/`elif` leaves any other value unchanged (argparse never lets one through). -/
def translateCgsMode (m : String) : String :=
  if m = "same_charge" then "same"
  else if m = "different_charge" then "diff"
  else if m = "all" then "both"
  else m

/-- The main-chain selection string of the `do_hb` block (lines 653-655). -/
def mc_sel : String :=
  "backbone or name H or name H1 or name H2 or name H3 " ++
  "or name O1 or name O2 or name OXT"

/-- The side-chain selection string (line 657). -/
def sc_sel : String := "protein and not (" ++ mc_sel ++ ")"

/-- The hydrogen-bond class after the promotion of lines 659-666: when both
custom groups are given and the class is not already `custom`, the class is
forced to `custom` (when the class already is `custom` the assignment would be
a no-op, so matching on the two groups gives the same result). -/
def effectiveHbClass (a : Args) : String :=
  match a.hb_group1, a.hb_group2 with
  | some _, some _ => "custom"
  | _, _ => a.hb_class

/-- The events of the hydrophobic-contacts block (lines 591-611): scan, write
the `.dat` report, and — `dointeract` returns a matrix exactly when a
`fullmatrix` function was passed, i.e. when `--hc-graph` was given — write the
matrix with format `"%.1f"`. -/
def hcEvents (a : Args) : List Event :=
  [Event.scanHC, Event.datFile AKind.hc a.hc_dat] ++
  (match a.hc_graph with
   | some g => [Event.matFile AKind.hc g "%.1f"]
   | none => [])

/-- The salt-bridges block (lines 616-645): parse the charged-groups file
(any raised exception or `exit(1)` terminates the process with a nonzero
code, modelled as `Except.error 1`), then scan with the translated mode, write
the `.dat` report and, when `--sb-graph` was given, the matrix with `"%.1f"`. -/
def sbEvents (a : Args) (e : Env) : Except Nat (List Event) :=
  match a.do_sb with
  | false => Except.ok []
  | true =>
      match driver_parse_cgs_file e.cgsIni with
      | Except.error _ => Except.error 1
      | Except.ok _ =>
          Except.ok
            ([Event.scanSB (translateCgsMode a.cgs_mode),
              Event.datFile AKind.sb a.sb_dat] ++
             (match a.sb_graph with
              | some g => [Event.matFile AKind.sb g "%.1f"]
              | none => []))

/-- Group resolution of the `do_hb` block (lines 659-715).  For class
`custom`: exit with code 1 when either group is undefined, when either
selection string raises in `selectAtoms`, or when either selection resolves to
zero atoms; otherwise the two custom selection strings are used.  The other
classes pick the fixed selection strings.  The final catch-all keeps the groups
as they are, mirroring the fall-through (argparse's `choices` makes it
unreachable). -/
def hbResolveGroups (a : Args) (e : Env) :
    Except Nat (Option String × Option String) :=
  if effectiveHbClass a = "custom" then
    match a.hb_group1, a.hb_group2 with
    | some g1, some g2 =>
        match e.selectAtoms g1 with
        | none => Except.error 1
        | some n1 =>
            match e.selectAtoms g2 with
            | none => Except.error 1
            | some n2 =>
                if n1 = 0 then Except.error 1
                else if n2 = 0 then Except.error 1
                else Except.ok (some g1, some g2)
    | _, _ => Except.error 1
  else if effectiveHbClass a = "all" then Except.ok (some "protein", some "protein")
  else if effectiveHbClass a = "mc-mc" then Except.ok (some mc_sel, some mc_sel)
  else if effectiveHbClass a = "sc-sc" then Except.ok (some sc_sel, some sc_sel)
  else if effectiveHbClass a = "mc-sc" then Except.ok (some mc_sel, some sc_sel)
  else Except.ok (a.hb_group1, a.hb_group2)

/-- The hydrogen-bonds block (lines 650-747): resolve the groups, parse the
donor/acceptor file (failure exits with code 1), then call `dohbonds` with the
constant `perresidue = False` of line 727, write the `.dat` report and, when
`--hb-graph` was given (`dohbonds` returns a matrix exactly when
`dofullmatrix` is set), the matrix with `"%.1f"`. -/
def hbEvents (a : Args) (e : Env) : Except Nat (List Event) :=
  match a.do_hb with
  | false => Except.ok []
  | true =>
      match hbResolveGroups a e with
      | Except.error c => Except.error c
      | Except.ok (s1, s2) =>
          match e.hbsOk with
          | false => Except.error 1
          | true =>
              Except.ok
                ([Event.scanHB s1 s2 false,
                  Event.datFile AKind.hb a.hb_dat] ++
                 (match a.hb_graph with
                  | some g => [Event.matFile AKind.hb g "%.1f"]
                  | none => []))

/-- The constant sequence-distance cutoff of the `do_kbp` block
(`kbp_seq_dist_co = 0`, line 765). -/
def kbp_seq_dist_co : Nat := 0

/-- The statistical-potential block (lines 752-780): call `dopotential` with
the constant sequence-distance cutoff `0`, write the `.dat` report and, when
`--kbp-graph` was given, the matrix with format `"%.3f"`. -/
def kbpEvents (a : Args) : List Event :=
  [Event.scanKBP kbp_seq_dist_co, Event.datFile AKind.kbp a.kbp_dat] ++
  (match a.kbp_graph with
   | some g => [Event.matFile AKind.kbp g "%.3f"]
   | none => [])

/-- The driver's top-level control flow (lines 569-780): require topology and
trajectory, load the system, then run the requested analyses in program order —
hydrophobic contacts, salt bridges, hydrogen bonds, statistical potential.
Returns the process exit code together with the events that happened before
the process ended; a block that exits discards nothing already performed.
Argument parsing itself, logging, the force-field mass tables and the numeric
work inside `libinteract` have no bearing on the claims and are not part of
the event model. -/
def runDriver (a : Args) (e : Env) : Nat × List Event :=
  match a.top, a.trj with
  | none, _ => (1, [])
  | _, none => (1, [])
  | some _, some _ =>
      match e.loadOk with
      | false => (1, [])
      | true =>
          let hcE := match a.do_hc with
                     | true => hcEvents a
                     | false => []
          match sbEvents a e with
          | Except.error c => (c, hcE)
          | Except.ok sbE =>
              match hbEvents a e with
              | Except.error c => (c, hcE ++ sbE)
              | Except.ok hbE =>
                  (0, hcE ++ sbE ++ hbE ++
                      (match a.do_kbp with
                       | true => kbpEvents a
                       | false => []))

/-- Recognizes a hydrogen-bond scan invocation. -/
def isScanHB : Event → Bool
  | Event.scanHB _ _ _ => true
  | _ => false

/-- Recognizes a salt-bridge output-file write. -/
def isSbOutput : Event → Bool
  | Event.datFile AKind.sb _ => true
  | Event.matFile AKind.sb _ _ => true
  | _ => false

/-- The fixed `np.savetxt` format string of each analysis block. -/
def expectedFmt : AKind → String
  | AKind.kbp => "%.3f"
  | _ => "%.1f"

lemma sbEvents_ok (a : Args) (e : Env) (l : List Event)
    (h : sbEvents a e = Except.ok l) : l = [] := by
  cases hsb : a.do_sb
  · simp only [sbEvents, hsb] at h
    injection h with h
    exact h.symm
  · obtain ⟨err, herr⟩ := driver_parse_cgs_file_fails e.cgsIni
    simp only [sbEvents, hsb, herr] at h
    exact Except.noConfusion h

lemma sbEvents_error_of_do_sb (a : Args) (e : Env) (hsb : a.do_sb = true) :
    sbEvents a e = Except.error 1 := by
  obtain ⟨err, herr⟩ := driver_parse_cgs_file_fails e.cgsIni
  simp only [sbEvents, hsb, herr]

lemma hcEvents_all (a : Args) (p : Event → Bool)
    (h1 : p Event.scanHC = true)
    (h2 : p (Event.datFile AKind.hc a.hc_dat) = true)
    (h3 : ∀ g, p (Event.matFile AKind.hc g "%.1f") = true) :
    (hcEvents a).all p = true := by
  rcases hg : a.hc_graph with _ | g <;>
    simp [hcEvents, hg, h1, h2, h3]

lemma hbEvents_ok_all (a : Args) (e : Env) (p : Event → Bool)
    (h1 : ∀ s1 s2, p (Event.scanHB s1 s2 false) = true)
    (h2 : p (Event.datFile AKind.hb a.hb_dat) = true)
    (h3 : ∀ g, p (Event.matFile AKind.hb g "%.1f") = true) :
    ∀ l, hbEvents a e = Except.ok l → l.all p = true := by
  intro l hl
  cases hhb : a.do_hb
  · simp only [hbEvents, hhb] at hl
    injection hl with hl
    subst hl
    simp
  · simp only [hbEvents, hhb] at hl
    rcases hres : hbResolveGroups a e with c | s
    · rw [hres] at hl
      exact Except.noConfusion hl
    · rw [hres] at hl
      obtain ⟨s1, s2⟩ := s
      cases hok : e.hbsOk
      · rw [hok] at hl
        exact Except.noConfusion hl
      · rw [hok] at hl
        rcases hg : a.hb_graph with _ | g <;> rw [hg] at hl <;>
          (injection hl with hl; subst hl; simp [h1, h2, h3])

lemma kbpEvents_all (a : Args) (p : Event → Bool)
    (h1 : p (Event.scanKBP 0) = true)
    (h2 : p (Event.datFile AKind.kbp a.kbp_dat) = true)
    (h3 : ∀ g, p (Event.matFile AKind.kbp g "%.3f") = true) :
    (kbpEvents a).all p = true := by
  rcases hg : a.kbp_graph with _ | g <;>
    simp [kbpEvents, kbp_seq_dist_co, hg, h1, h2, h3]

lemma runDriver_all (a : Args) (e : Env) (p : Event → Bool)
    (hhc : (hcEvents a).all p = true)
    (hsbl : ∀ l, sbEvents a e = Except.ok l → l.all p = true)
    (hhbl : ∀ l, hbEvents a e = Except.ok l → l.all p = true)
    (hkbp : (kbpEvents a).all p = true) :
    ((runDriver a e).2).all p = true := by
  unfold runDriver
  rcases htop : a.top with _ | t
  · simp
  rcases htrj : a.trj with _ | u
  · simp
  cases hload : e.loadOk
  · simp
  rcases hsbe : sbEvents a e with c | sbl
  · cases hdohc : a.do_hc <;> simp [hhc]
  rcases hhbe : hbEvents a e with c | hbl
  · cases hdohc : a.do_hc <;>
      simp [List.all_append, hhc, hsbl sbl hsbe]
  cases hdohc : a.do_hc <;> cases hdokbp : a.do_kbp <;>
    simp [List.all_append, hhc, hsbl sbl hsbe, hhbl hbl hhbe, hkbp]

/-- A benign external world: contentless charged-groups file (what
`configparser` yields for an unreadable or empty file), working donor/acceptor
file, selections resolving to five atoms, loadable system. -/
def exEnv : Env :=
  { cgsIni := ⟨[]⟩
    hbsOk := true
    selectAtoms := fun _ => some 5
    loadOk := true }

/-- C2 counterexample: topology and trajectory given, both hydrophobic
contacts and salt bridges requested, charged-groups file bad.  The run exits
with code 1, yet the hydrophobic-contacts report file has been written —
contradicting the claim that no analysis output file exists after the failed
run. -/
theorem C2_partial_output_counterexample :
    (runDriver { top := some "top.gro", trj := some "traj.xtc",
                 do_hc := true, do_sb := true } exEnv).1 = 1 ∧
    Event.datFile AKind.hc "hydrophobic-clusters.dat" ∈
      (runDriver { top := some "top.gro", trj := some "traj.xtc",
                   do_hc := true, do_sb := true } exEnv).2 := by
  constructor
  · rfl
  · decide

/-- C2 (amended): when both the hydrophobic-contacts and salt-bridges analyses
are requested and the charged-groups file is bad, the process exits non-zero
and the salt-bridge analysis writes no output file, but the hydrophobic-contacts
output written by the earlier block remains: the trace is exactly the
hydrophobic block's events, it contains the hydrophobic `.dat` write, and it
contains no salt-bridge output write.  (With the driver's `parse_cgs_file`
bug the salt-bridge block in fact aborts on every charged-groups file, so no
badness hypothesis on the file is needed.) -/
theorem C2_exit_keeps_earlier_output (a : Args) (e : Env)
    (hhc : a.do_hc = true) (hsb : a.do_sb = true)
    (htop : a.top.isSome = true) (htrj : a.trj.isSome = true)
    (hload : e.loadOk = true) :
    (runDriver a e).1 = 1 ∧
    (runDriver a e).2 = hcEvents a ∧
    Event.datFile AKind.hc a.hc_dat ∈ (runDriver a e).2 ∧
    ((runDriver a e).2).any isSbOutput = false := by
  have herr := sbEvents_error_of_do_sb a e hsb
  rcases htop' : a.top with _ | t
  · rw [htop'] at htop
    exact absurd htop (by simp)
  rcases htrj' : a.trj with _ | u
  · rw [htrj'] at htrj
    exact absurd htrj (by simp)
  have hrun : runDriver a e = (1, hcEvents a) := by
    unfold runDriver
    rw [htop', htrj', hload, herr, hhc]
  refine ⟨by rw [hrun], by rw [hrun], ?_, ?_⟩
  · rw [hrun]
    rcases hg : a.hc_graph with _ | g <;> simp [hcEvents, hg]
  · rw [hrun]
    rcases hg : a.hc_graph with _ | g <;>
      simp [hcEvents, hg, isSbOutput]

/-- C2 witness: the counterexample configuration satisfies every hypothesis of
the amended statement. -/
theorem C2_exit_keeps_earlier_output_witness :
    (runDriver { top := some "top.gro", trj := some "traj.xtc",
                 do_hc := true, do_sb := true } exEnv).1 = 1 ∧
    (runDriver { top := some "top.gro", trj := some "traj.xtc",
                 do_hc := true, do_sb := true } exEnv).2 =
      hcEvents { top := some "top.gro", trj := some "traj.xtc",
                 do_hc := true, do_sb := true } ∧
    Event.datFile AKind.hc "hydrophobic-clusters.dat" ∈
      (runDriver { top := some "top.gro", trj := some "traj.xtc",
                   do_hc := true, do_sb := true } exEnv).2 ∧
    ((runDriver { top := some "top.gro", trj := some "traj.xtc",
                  do_hc := true, do_sb := true } exEnv).2).any isSbOutput
      = false :=
  C2_exit_keeps_earlier_output _ _ rfl rfl rfl rfl rfl

lemma hbResolveGroups_error (a : Args) (e : Env)
    (hclass : effectiveHbClass a = "custom")
    (hfail : a.hb_group1 = none ∨ a.hb_group2 = none ∨
      (∃ g, a.hb_group1 = some g ∧ e.selectAtoms g = some 0) ∨
      (∃ g, a.hb_group2 = some g ∧ e.selectAtoms g = some 0)) :
    hbResolveGroups a e = Except.error 1 := by
  unfold hbResolveGroups
  rw [hclass]
  rcases hfail with h1 | h2 | ⟨g, hge, hsel⟩ | ⟨g, hge, hsel⟩
  · rcases hg2 : a.hb_group2 with _ | g2 <;> simp [h1, hg2]
  · rcases hg1 : a.hb_group1 with _ | g1 <;> simp [h2, hg1]
  · rcases hg2 : a.hb_group2 with _ | g2
    · simp [hge, hg2]
    · rcases hs2 : e.selectAtoms g2 with _ | n2 <;>
        simp [hge, hg2, hsel, hs2]
  · rcases hg1 : a.hb_group1 with _ | g1
    · simp [hg1]
    · rcases hs1 : e.selectAtoms g1 with _ | n1
      · simp [hg1, hge, hs1]
      · by_cases hn1 : n1 = 0 <;>
          simp [hg1, hge, hs1, hsel, hn1]

/-- C5: when hydrogen-bond class `custom` is in effect (selected directly or
forced because both custom groups were given) and either custom group is
undefined or either custom selection resolves to zero atoms, the run exits
with code 1 and no hydrogen-bond scan happens. -/
theorem C5_custom_group_errors (a : Args) (e : Env)
    (hsb : a.do_sb = false) (hhb : a.do_hb = true)
    (htop : a.top.isSome = true) (htrj : a.trj.isSome = true)
    (hload : e.loadOk = true)
    (hclass : effectiveHbClass a = "custom")
    (hfail : a.hb_group1 = none ∨ a.hb_group2 = none ∨
      (∃ g, a.hb_group1 = some g ∧ e.selectAtoms g = some 0) ∨
      (∃ g, a.hb_group2 = some g ∧ e.selectAtoms g = some 0)) :
    (runDriver a e).1 = 1 ∧ ((runDriver a e).2).any isScanHB = false := by
  have hres := hbResolveGroups_error a e hclass hfail
  have hhbe : hbEvents a e = Except.error 1 := by
    simp only [hbEvents, hhb, hres]
  have hsbe : sbEvents a e = Except.ok [] := by
    simp only [sbEvents, hsb]
  rcases htop' : a.top with _ | t
  · rw [htop'] at htop
    exact absurd htop (by simp)
  rcases htrj' : a.trj with _ | u
  · rw [htrj'] at htrj
    exact absurd htrj (by simp)
  constructor
  · unfold runDriver
    rw [htop', htrj', hload, hsbe, hhbe]
  · unfold runDriver
    rw [htop', htrj', hload, hsbe, hhbe]
    cases hdohc : a.do_hc
    · simp
    · rcases hg : a.hc_graph with _ | g <;>
        simp [hcEvents, hg, isScanHB]

/-- C5 witness: class `custom` with group 2 undefined exits with code 1 and
performs no hydrogen-bond scan. -/
theorem C5_custom_group_errors_witness :
    (runDriver { top := some "top.gro", trj := some "traj.xtc",
                 do_hb := true, hb_class := "custom",
                 hb_group1 := some "name CA" } exEnv).1 = 1 ∧
    ((runDriver { top := some "top.gro", trj := some "traj.xtc",
                  do_hb := true, hb_class := "custom",
                  hb_group1 := some "name CA" } exEnv).2).any isScanHB
      = false :=
  C5_custom_group_errors _ _ rfl rfl rfl rfl rfl rfl (Or.inr (Or.inl rfl))

/-- Per-event check that a matrix write uses its block's format string. -/
def fmtOk : Event → Bool
  | Event.matFile k _ fmt => fmt == expectedFmt k
  | _ => true

/-- C6: every adjacency-matrix file write performed by a driver run uses
exactly 1 decimal place for the hydrophobic-contacts, salt-bridges and
hydrogen-bonds matrices and exactly 3 decimal places for the
statistical-potential matrix. -/
theorem C6_matrix_formats (a : Args) (e : Env) (k : AKind) (f fmt : String)
    (hmem : Event.matFile k f fmt ∈ (runDriver a e).2) :
    fmt = expectedFmt k := by
  have hall : ((runDriver a e).2).all fmtOk = true := by
    apply runDriver_all
    · exact hcEvents_all a fmtOk rfl rfl (fun g => rfl)
    · intro l hl
      have h0 := sbEvents_ok a e l hl
      subst h0; simp
    · exact hbEvents_ok_all a e fmtOk (fun s1 s2 => rfl) rfl (fun g => rfl)
    · exact kbpEvents_all a fmtOk rfl rfl (fun g => rfl)
  have hp := List.all_eq_true.mp hall _ hmem
  simpa [fmtOk] using hp

/-- C6 witness: a run with `--hc-graph` writes the hydrophobic matrix with
format `"%.1f"`, the 1-decimal format of its block. -/
theorem C6_matrix_formats_witness :
    Event.matFile AKind.hc "hc-graph.dat" "%.1f" ∈
      (runDriver { top := some "top.gro", trj := some "traj.xtc",
                   do_hc := true, hc_graph := some "hc-graph.dat" } exEnv).2 ∧
    "%.1f" = expectedFmt AKind.hc :=
  ⟨by decide,
   C6_matrix_formats { top := some "top.gro", trj := some "traj.xtc",
                       do_hc := true, hc_graph := some "hc-graph.dat" } exEnv
     AKind.hc "hc-graph.dat" "%.1f" (by decide)⟩

/-- Per-event check that a hydrogen-bond scan has residue aggregation off. -/
def hbScanPerresidueOk : Event → Bool
  | Event.scanHB _ _ pr => pr == false
  | _ => true

/-- C10: every hydrogen-bond scan the driver can issue carries
`perresidue = False`: residue-level aggregation is never enabled through the
command line. -/
theorem C10_perresidue_always_false (a : Args) (e : Env)
    (s1 s2 : Option String) (pr : Bool)
    (hmem : Event.scanHB s1 s2 pr ∈ (runDriver a e).2) :
    pr = false := by
  have hall := runDriver_all a e hbScanPerresidueOk
    (hcEvents_all a _ rfl rfl (fun g => rfl))
    (fun l hl => by
      have h0 := sbEvents_ok a e l hl
      subst h0; simp)
    (hbEvents_ok_all a e _ (fun s1 s2 => rfl) rfl (fun g => rfl))
    (kbpEvents_all a _ rfl rfl (fun g => rfl))
  have hp := List.all_eq_true.mp hall _ hmem
  simpa [hbScanPerresidueOk] using hp

/-- C10 witness: a plain `-y` run scans with `perresidue = False`. -/
theorem C10_perresidue_always_false_witness :
    Event.scanHB (some "protein") (some "protein") false ∈
      (runDriver { top := some "top.gro", trj := some "traj.xtc",
                   do_hb := true } exEnv).2 ∧
    false = false :=
  ⟨by decide,
   C10_perresidue_always_false
     { top := some "top.gro", trj := some "traj.xtc", do_hb := true } exEnv
     (some "protein") (some "protein") false (by decide)⟩

/-- C7: the salt-bridge analysis translates the command-line mode exactly as
`different_charge` (the default) to engine mode `diff`, `same_charge` to
`same`, and `all` to `both`; the argparse `choices` list admits exactly these
three values, so no other mode reaches the translation. -/
theorem C7_sb_mode_translation :
    translateCgsMode "different_charge" = "diff" ∧
    translateCgsMode "same_charge" = "same" ∧
    translateCgsMode "all" = "both" ∧
    sbmode_choices = ["different_charge", "same_charge", "all"] ∧
    sbmode_default = "different_charge" :=
  ⟨rfl, rfl, rfl, rfl, rfl⟩

/-- Per-event check that a potential scan uses sequence-distance cutoff 0. -/
def kbpSeqDistOk : Event → Bool
  | Event.scanKBP n => n == 0
  | _ => true

/-- Modelled from the spec: the sequence-distance eligibility filter of
`dopotential` in `libinteract`, which is not under `src/`.  Spec section 4.4:
a residue pair is scored only when `|resnum_i - resnum_j|` exceeds the
sequence-distance cutoff. -/
def seqDistEligible (co : Nat) (i j : Int) : Bool :=
  decide (co < (i - j).natAbs)

/-- C8: the driver always invokes the statistical-potential analysis with
sequence-distance cutoff 0, and under cutoff 0 the eligibility filter excludes
exactly the pairs in which a residue is paired with itself (equal residue
numbers). -/
theorem C8_kbp_seq_dist_zero (a : Args) (e : Env) (n : Nat)
    (hmem : Event.scanKBP n ∈ (runDriver a e).2) (i j : Int) :
    n = 0 ∧ (seqDistEligible n i j = true ↔ i ≠ j) := by
  have hall := runDriver_all a e kbpSeqDistOk
    (hcEvents_all a _ rfl rfl (fun g => rfl))
    (fun l hl => by
      have h0 := sbEvents_ok a e l hl
      subst h0; simp)
    (hbEvents_ok_all a e _ (fun s1 s2 => rfl) rfl (fun g => rfl))
    (kbpEvents_all a _ rfl rfl (fun g => rfl))
  have hp := List.all_eq_true.mp hall _ hmem
  have hn : n = 0 := by simpa [kbpSeqDistOk] using hp
  subst hn
  refine ⟨rfl, ?_⟩
  simp [seqDistEligible, Int.natAbs_pos, sub_ne_zero]

/-- C8 witness: a `-p` run issues the potential scan with cutoff 0, and under
that cutoff the residue pair (2, 3) is eligible exactly because 2 ≠ 3. -/
theorem C8_kbp_seq_dist_zero_witness :
    Event.scanKBP 0 ∈
      (runDriver { top := some "top.gro", trj := some "traj.xtc",
                   do_kbp := true } exEnv).2 ∧
    (0 = 0 ∧ (seqDistEligible 0 2 3 = true ↔ (2 : Int) ≠ 3)) :=
  ⟨by decide,
   C8_kbp_seq_dist_zero
     { top := some "top.gro", trj := some "traj.xtc", do_kbp := true } exEnv
     0 (by decide) 2 3⟩

/-- Modelled from the spec: one atom-level line of the hydrogen-bond textual
report of `do_hbonds` in `libinteract`, which is not under `src/` — the
residue-pair identity followed by the two atom names (spec sections 4.3
and 6). -/
structure HBPair where
  res1 : String
  res2 : String
  atom1 : String
  atom2 : String
deriving DecidableEq

/-- The report sort key: residue pair first, then atom names. -/
def hbKey (p : HBPair) : String ×ₗ (String ×ₗ (String ×ₗ String)) :=
  toLex (p.res1, toLex (p.res2, toLex (p.atom1, p.atom2)))

/-- The report order: lexicographic by residue pair then atom names. -/
def hbLe (p q : HBPair) : Prop := hbKey p ≤ hbKey q

instance : DecidableRel hbLe := fun p q =>
  inferInstanceAs (Decidable (hbKey p ≤ hbKey q))

lemma hbKey_inj {p q : HBPair} (h : hbKey p = hbKey q) : p = q := by
  cases p
  cases q
  simp only [hbKey, toLex_inj, Prod.mk.injEq] at h
  obtain ⟨h1, h2, h3, h4⟩ := h
  simp_all

instance : IsTotal HBPair hbLe :=
  ⟨fun p q => le_total (hbKey p) (hbKey q)⟩

instance : IsTrans HBPair hbLe :=
  ⟨fun _ _ _ h1 h2 => le_trans h1 h2⟩

instance : IsAntisymm HBPair hbLe :=
  ⟨fun _ _ h1 h2 => hbKey_inj (le_antisymm h1 h2)⟩

/-- Modelled from the spec: the emission of the atom-level hydrogen-bond
report, which spec section 4.3 requires to be in a stable deterministic
order — lexicographic by residue pair then atom names. -/
def emitHBReport (l : List HBPair) : List HBPair :=
  List.insertionSort hbLe l

/-- C4: the atom-level hydrogen-bond report is emitted in a stable
deterministic order, lexicographic by residue pair then atom names: any two
inputs carrying the same qualifying pairs (as multisets, i.e. up to
permutation) produce reports with identical line order, and every emitted
report is lexicographically sorted. -/
theorem C4_hb_report_deterministic (l1 l2 : List HBPair) (h : l1.Perm l2) :
    emitHBReport l1 = emitHBReport l2 ∧
    List.Sorted hbLe (emitHBReport l1) := by
  constructor
  · exact List.eq_of_perm_of_sorted
      (((List.perm_insertionSort hbLe l1).trans h).trans
        (List.perm_insertionSort hbLe l2).symm)
      (List.sorted_insertionSort hbLe l1)
      (List.sorted_insertionSort hbLe l2)
  · exact List.sorted_insertionSort hbLe l1

/-- Concrete hydrogen-bond report lines for the determinism witness. -/
def exHB1 : HBPair := ⟨"A-10ALA", "A-15SER", "N", "OG"⟩

/-- A second, lexicographically later report line. -/
def exHB2 : HBPair := ⟨"A-10ALA", "A-20GLU", "N", "OE1"⟩

/-- C4 witness: two runs on the same qualifying pairs delivered in opposite
orders emit the same, sorted report. -/
theorem C4_hb_report_deterministic_witness :
    emitHBReport [exHB2, exHB1] = emitHBReport [exHB1, exHB2] ∧
    List.Sorted hbLe (emitHBReport [exHB2, exHB1]) :=
  C4_hb_report_deterministic [exHB2, exHB1] [exHB1, exHB2]
    (List.Perm.swap exHB1 exHB2 [])
